import Mathlib

/-!
Shallow embedding of the cvdriskcalculator risk engine (risk-core module and
the treatment projector shared by the UI scripts), together with proofs about
its calculation functions.

JavaScript numbers are modelled by `JsNum`: either a finite real value or NaN.
Arithmetic on `JsNum` propagates NaN exactly as JS arithmetic does on finite
operands.  Float rounding and overflow to Infinity are abstracted away: the
finite case carries an exact real.  JS division by zero yields a non-finite
value; every division in the embedded code has a provably nonzero denominator
(constants 10, 0.3, 20, -15 and 1 + e^x), so the embedding uses real division
directly on the finite case.
-/

namespace RiskCore

/-- A JavaScript number: NaN or a finite real value. -/
inductive JsNum where
  | nan : JsNum
  | num (x : ℝ) : JsNum

noncomputable section

namespace JsNum

/-- JS addition: NaN-propagating addition of finite reals. -/
def add : JsNum → JsNum → JsNum
  | num a, num b => num (a + b)
  | _, _ => nan

/-- JS subtraction. -/
def sub : JsNum → JsNum → JsNum
  | num a, num b => num (a - b)
  | _, _ => nan

/-- JS multiplication. -/
def mul : JsNum → JsNum → JsNum
  | num a, num b => num (a * b)
  | _, _ => nan

/-- JS division.  Every division performed by the embedded code has a nonzero
denominator, where JS and real division agree. -/
def div : JsNum → JsNum → JsNum
  | num a, num b => num (a / b)
  | _, _ => nan

/-- Math.exp. -/
def exp : JsNum → JsNum
  | num a => num (Real.exp a)
  | nan => nan

/-- Math.min (NaN-propagating, as in JS). -/
def jsMin : JsNum → JsNum → JsNum
  | num a, num b => num (min a b)
  | _, _ => nan

/-- Math.max (NaN-propagating, as in JS). -/
def jsMax : JsNum → JsNum → JsNum
  | num a, num b => num (max a b)
  | _, _ => nan

/-- Number.isFinite. -/
def isFinite : JsNum → Bool
  | num _ => true
  | nan => false

/-- Number.isNaN. -/
def isNaN : JsNum → Bool
  | num _ => false
  | nan => true

instance : Add JsNum := ⟨add⟩
instance : Sub JsNum := ⟨sub⟩
instance : Mul JsNum := ⟨mul⟩
instance : Div JsNum := ⟨div⟩

end JsNum

/-- Conversion factor from mg/dL to mmol/L for cholesterol. -/
def MGDL_TO_MMOL : ℝ := 0.02586

/-- Values above this threshold are interpreted as mg/dL. -/
def CHOLESTEROL_MGDL_THRESHOLD : ℝ := 20

/-- Embedding of `convertCholesterolToMmol` from the risk-core module.  The
JS `Number(value)` coercion and the `Number.isFinite` guard correspond to the
`nan` case. -/
def convertCholesterolToMmol (value : JsNum) : JsNum :=
  match value with
  | .nan => .nan
  | .num numericValue =>
    if numericValue ≤ 0 then .num numericValue
    else if numericValue > CHOLESTEROL_MGDL_THRESHOLD then
      .num (numericValue * MGDL_TO_MMOL)
    else .num numericValue

/-- Embedding of `clampProbability`: NaN maps to 0, otherwise
`Math.min(Math.max(value, 0), 0.95)`.  The returned JS number is never NaN,
so the result type is ℝ. -/
def clampProbability (value : JsNum) : ℝ :=
  match value with
  | .nan => 0
  | .num x => min (max x 0) 0.95

/-- Coefficients of the FINRISK coronary sub-model. -/
structure FinriskCoronaryCoefficients where
  intercept : ℝ
  age : ℝ
  smoking : ℝ
  totalChol : ℝ
  systolic : ℝ
  hdl : ℝ
  diabetes : ℝ
  parental : ℝ

/-- Coefficients of the FINRISK stroke sub-model (no totalChol term). -/
structure FinriskStrokeCoefficients where
  intercept : ℝ
  age : ℝ
  smoking : ℝ
  systolic : ℝ
  hdl : ℝ
  diabetes : ℝ
  parental : ℝ

/-- One sex's FINRISK coefficient set. -/
structure FinriskSexCoefficients where
  coronary : FinriskCoronaryCoefficients
  stroke : FinriskStrokeCoefficients

/-- The male FINRISK coefficient set from the risk-core module. -/
def finriskMale : FinriskSexCoefficients where
  coronary :=
    { intercept := 9.081, age := 0.075, smoking := 0.579, totalChol := 0.320
      systolic := 0.011, hdl := 1.082, diabetes := 0.729, parental := 0.338 }
  stroke :=
    { intercept := 9.928, age := 0.083, smoking := 0.369
      systolic := 0.014, hdl := 0.329, diabetes := 0.705, parental := 0.249 }

/-- The female FINRISK coefficient set from the risk-core module. -/
def finriskFemale : FinriskSexCoefficients where
  coronary :=
    { intercept := 11.25, age := 0.095, smoking := 0.639, totalChol := 0.244
      systolic := 0.013, hdl := 0.845, diabetes := 1.315, parental := 0.421 }
  stroke :=
    { intercept := 9.553, age := 0.085, smoking := 0.613
      systolic := 0.012, hdl := 0.623, diabetes := 0.914, parental := 0.023 }

/-- The `finriskCoefficients` table, as a lookup keyed by the sex string. -/
def finriskCoefficients (sex : String) : Option FinriskSexCoefficients :=
  if sex = "male" then some finriskMale
  else if sex = "female" then some finriskFemale
  else none

/-- One sex's PREVENT Total CVD coefficient set. -/
structure PreventCoefficients where
  intercept : ℝ
  age : ℝ
  nonHdl : ℝ
  hdl : ℝ
  sbpBelow : ℝ
  sbpAbove : ℝ
  diabetes : ℝ
  smoker : ℝ
  egfrBelow : ℝ
  egfrAbove : ℝ
  antiHypertensive : ℝ
  statin : ℝ
  antiHypertensive_sbpAbove : ℝ
  statin_nonHdl : ℝ
  age_nonHdl : ℝ
  age_hdl : ℝ
  age_sbpAbove : ℝ
  age_diabetes : ℝ
  age_smoker : ℝ
  age_egfrBelow : ℝ

/-- The female PREVENT Total CVD coefficient set from the risk-core module. -/
def riskCalculatorFemale : PreventCoefficients where
  intercept := -3.307728
  age := 0.7939329
  nonHdl := 0.0305239
  hdl := -0.1606857
  sbpBelow := -0.2394003
  sbpAbove := 0.360078
  diabetes := 0.8667604
  smoker := 0.5360739
  egfrBelow := 0.6045917
  egfrAbove := 0.0433769
  antiHypertensive := 0.3151672
  statin := -0.1477655
  antiHypertensive_sbpAbove := -0.0663612
  statin_nonHdl := 0.1197879
  age_nonHdl := -0.0819715
  age_hdl := 0.0306769
  age_sbpAbove := -0.0946348
  age_diabetes := -0.27057
  age_smoker := -0.078715
  age_egfrBelow := -0.1637806

/-- The male PREVENT Total CVD coefficient set from the risk-core module. -/
def riskCalculatorMale : PreventCoefficients where
  intercept := -3.031168
  age := 0.7688528
  nonHdl := 0.0736174
  hdl := -0.0954431
  sbpBelow := -0.4347345
  sbpAbove := 0.3362658
  diabetes := 0.7692857
  smoker := 0.4386871
  egfrBelow := 0.5378979
  egfrAbove := 0.0164827
  antiHypertensive := 0.288879
  statin := -0.1337349
  antiHypertensive_sbpAbove := -0.0475924
  statin_nonHdl := 0.150273
  age_nonHdl := -0.0517874
  age_hdl := 0.0191169
  age_sbpAbove := -0.1049477
  age_diabetes := -0.2251948
  age_smoker := -0.0895067
  age_egfrBelow := -0.1543702

/-- The `riskCalculatorCoefficients` table, as a lookup keyed by the sex
string. -/
def riskCalculatorCoefficients (sex : String) : Option PreventCoefficients :=
  if sex = "male" then some riskCalculatorMale
  else if sex = "female" then some riskCalculatorFemale
  else none

/-- A clinical input record as passed by the UI: enum-like fields are strings
(a missing field never equals "yes" or "female"), numeric fields are the JS
numbers obtained from `Number(...)` coercion (missing field means NaN). -/
structure ClinicalInput where
  sex : String
  smoker : String
  diabetes : String
  parentInfarction : String
  parentStroke : String
  bpMedicated : String
  statin : String
  age : JsNum
  systolic : JsNum
  totalChol : JsNum
  hdl : JsNum
  egfr : JsNum

/-- Embedding of `calculateFinrisk` from the risk-core module.  A thrown
`Error` is modelled by `Except.error` carrying the message.  The source term
`(coronary.totalChol || 0)` is modelled as `coronary.totalChol`, which is
present and nonzero in both coefficient sets, so the `|| 0` fallback never
fires. -/
def calculateFinrisk (inputs : ClinicalInput) : Except String ℝ :=
  let sex := if inputs.sex = "female" then "female" else "male"
  match finriskCoefficients sex with
  | none => Except.error ("Missing FINRISK coefficients for selected sex.")
  | some coefficients =>
    let smoker : JsNum := .num (if inputs.smoker = "yes" then 1 else 0)
    let diabetes : JsNum := .num (if inputs.diabetes = "yes" then 1 else 0)
    let parentInfarction : JsNum := .num (if inputs.parentInfarction = "yes" then 1 else 0)
    let parentStroke : JsNum := .num (if inputs.parentStroke = "yes" then 1 else 0)
    let age := inputs.age
    let systolic := inputs.systolic
    let totalChol := convertCholesterolToMmol inputs.totalChol
    let hdl := convertCholesterolToMmol inputs.hdl
    let coronary := coefficients.coronary
    let stroke := coefficients.stroke
    let coronaryExponent :=
      JsNum.num coronary.intercept -
      JsNum.num coronary.age * age -
      JsNum.num coronary.smoking * smoker -
      JsNum.num coronary.totalChol * totalChol -
      JsNum.num coronary.systolic * systolic +
      JsNum.num coronary.hdl * hdl -
      JsNum.num coronary.diabetes * diabetes -
      JsNum.num coronary.parental * parentInfarction
    let strokeExponent :=
      JsNum.num stroke.intercept -
      JsNum.num stroke.age * age -
      JsNum.num stroke.smoking * smoker -
      JsNum.num stroke.systolic * systolic +
      JsNum.num stroke.hdl * hdl -
      JsNum.num stroke.diabetes * diabetes -
      JsNum.num stroke.parental * parentStroke
    let coronaryRisk := JsNum.num 1 / (JsNum.num 1 + JsNum.exp coronaryExponent)
    let strokeRisk := JsNum.num 1 / (JsNum.num 1 + JsNum.exp strokeExponent)
    let combinedRisk :=
      JsNum.num 1 - (JsNum.num 1 - coronaryRisk) * (JsNum.num 1 - strokeRisk)
    Except.ok (clampProbability combinedRisk)

/-- Embedding of `calculatePreventTotalCvd` from the risk-core module. -/
def calculatePreventTotalCvd (inputs : ClinicalInput) : Except String ℝ :=
  let sex := if inputs.sex = "female" then "female" else "male"
  match riskCalculatorCoefficients sex with
  | none => Except.error ("Missing PREVENT Total CVD coefficients for selected sex.")
  | some coefficients =>
    let smoker : JsNum := .num (if inputs.smoker = "yes" then 1 else 0)
    let diabetes : JsNum := .num (if inputs.diabetes = "yes" then 1 else 0)
    let bpMedicated : JsNum := .num (if inputs.bpMedicated = "yes" then 1 else 0)
    let statin : JsNum := .num (if inputs.statin = "yes" then 1 else 0)
    let age := inputs.age
    let systolic := inputs.systolic
    let totalChol := convertCholesterolToMmol inputs.totalChol
    let hdl := convertCholesterolToMmol inputs.hdl
    let egfr := inputs.egfr
    if [age, systolic, totalChol, hdl, egfr].any (fun value => !value.isFinite) then
      Except.error ("Missing or invalid numeric inputs for PREVENT Total CVD calculation.")
    else
      let ageTerm := (age - JsNum.num 55) / JsNum.num 10
      let nonHdlTerm := totalChol - hdl - JsNum.num 3.5
      let hdlTerm := (hdl - JsNum.num 1.3) / JsNum.num 0.3
      let sbpBelowTerm := (JsNum.jsMin systolic (JsNum.num 110) - JsNum.num 110) / JsNum.num 20
      let sbpAboveTerm := (JsNum.jsMax systolic (JsNum.num 110) - JsNum.num 130) / JsNum.num 20
      let egfrBelowTerm := (JsNum.jsMin egfr (JsNum.num 60) - JsNum.num 60) / JsNum.num (-15)
      let egfrAboveTerm := (JsNum.jsMax egfr (JsNum.num 60) - JsNum.num 90) / JsNum.num (-15)
      let logOdds :=
        JsNum.num coefficients.intercept +
        JsNum.num coefficients.age * ageTerm +
        JsNum.num coefficients.nonHdl * nonHdlTerm +
        JsNum.num coefficients.hdl * hdlTerm +
        JsNum.num coefficients.sbpBelow * sbpBelowTerm +
        JsNum.num coefficients.sbpAbove * sbpAboveTerm +
        JsNum.num coefficients.diabetes * diabetes +
        JsNum.num coefficients.smoker * smoker +
        JsNum.num coefficients.egfrBelow * egfrBelowTerm +
        JsNum.num coefficients.egfrAbove * egfrAboveTerm +
        JsNum.num coefficients.antiHypertensive * bpMedicated +
        JsNum.num coefficients.statin * statin +
        JsNum.num coefficients.antiHypertensive_sbpAbove * bpMedicated * sbpAboveTerm +
        JsNum.num coefficients.statin_nonHdl * statin * nonHdlTerm +
        JsNum.num coefficients.age_nonHdl * ageTerm * nonHdlTerm +
        JsNum.num coefficients.age_hdl * ageTerm * hdlTerm +
        JsNum.num coefficients.age_sbpAbove * ageTerm * sbpAboveTerm +
        JsNum.num coefficients.age_diabetes * ageTerm * diabetes +
        JsNum.num coefficients.age_smoker * ageTerm * smoker +
        JsNum.num coefficients.age_egfrBelow * ageTerm * egfrBelowTerm
      let risk := JsNum.exp logOdds / (JsNum.num 1 + JsNum.exp logOdds)
      Except.ok (clampProbability risk)

/-- A treatment strategy entry of the fixed `treatmentStrategies` list. -/
structure TreatmentStrategy where
  id : String
  label : String
  multiplier : ℝ

/-- The fixed `treatmentStrategies` list shared by the UI scripts. -/
def treatmentStrategies : List TreatmentStrategy :=
  [ { id := "baseline", label := "No pharmacotherapy", multiplier := 1 },
    { id := "bp1", label := "One blood pressure medication", multiplier := 0.9 },
    { id := "bp2", label := "Two blood pressure medications", multiplier := 0.9 * 0.9 },
    { id := "statin", label := "Statin therapy", multiplier := 0.75 },
    { id := "bp1Statin", label := "One blood pressure medication + statin",
      multiplier := 0.9 * 0.75 },
    { id := "combo", label := "Two blood pressure medications + statin",
      multiplier := 0.9 * 0.9 * 0.75 } ]

/-- The record produced by `calculateTreatmentRisks` for one strategy: the JS
object spread keeps id, label and multiplier alongside the computed fields. -/
structure TreatmentResult where
  id : String
  label : String
  multiplier : ℝ
  risk : ℝ
  absoluteBenefit : ℝ

/-- Embedding of `calculateTreatmentRisks`.  The baseline risk handed over by
the UI is a finite number, so the argument of `clampProbability` is the finite
product. -/
def calculateTreatmentRisks (baselineRisk : ℝ) : List TreatmentResult :=
  treatmentStrategies.map fun strategy =>
    { id := strategy.id
      label := strategy.label
      multiplier := strategy.multiplier
      risk := clampProbability (JsNum.num (baselineRisk * strategy.multiplier))
      absoluteBenefit := max 0 (baselineRisk - baselineRisk * strategy.multiplier) }

/-! Specification-side definitions, written from the spec wording, to be
compared with the embedded source functions in the refinement claims. -/

/-- Spec formula: sigmoid(x) = 1/(1+e^−x). -/
def sigmoid (x : ℝ) : ℝ := 1 / (1 + Real.exp (-x))

/-- Spec formula: each FINRISK sub-risk is 1/(1+e^exponent). -/
def finriskSubRisk (exponent : ℝ) : ℝ := 1 / (1 + Real.exp exponent)

/-- Spec formula: FINRISK combined risk 1 − (1−coronaryRisk)·(1−strokeRisk). -/
def finriskCombined (coronaryRisk strokeRisk : ℝ) : ℝ :=
  1 - (1 - coronaryRisk) * (1 - strokeRisk)

/-- Spec formula for the FINRISK coronary exponent. -/
def finriskCoronaryExponent (c : FinriskCoronaryCoefficients)
    (age smoker totalChol systolic hdl diabetes parental : ℝ) : ℝ :=
  c.intercept - c.age * age - c.smoking * smoker - c.totalChol * totalChol -
    c.systolic * systolic + c.hdl * hdl - c.diabetes * diabetes -
    c.parental * parental

/-- Spec formula for the FINRISK stroke exponent. -/
def finriskStrokeExponent (c : FinriskStrokeCoefficients)
    (age smoker systolic hdl diabetes parental : ℝ) : ℝ :=
  c.intercept - c.age * age - c.smoking * smoker - c.systolic * systolic +
    c.hdl * hdl - c.diabetes * diabetes - c.parental * parental

/-- Spec formula for the PREVENT Total CVD linear predictor: centered/scaled
predictor terms, each multiplied by its coefficient, plus the listed two-way
interaction terms. -/
def preventLinearPredictor (c : PreventCoefficients)
    (age systolic totalChol hdl egfr diabetes smoker bpMedicated statin : ℝ) : ℝ :=
  let ageTerm := (age - 55) / 10
  let nonHdlTerm := totalChol - hdl - 3.5
  let hdlTerm := (hdl - 1.3) / 0.3
  let sbpBelowTerm := (min systolic 110 - 110) / 20
  let sbpAboveTerm := (max systolic 110 - 130) / 20
  let egfrBelowTerm := (min egfr 60 - 60) / (-15)
  let egfrAboveTerm := (max egfr 60 - 90) / (-15)
  c.intercept + c.age * ageTerm + c.nonHdl * nonHdlTerm + c.hdl * hdlTerm +
  c.sbpBelow * sbpBelowTerm + c.sbpAbove * sbpAboveTerm +
  c.diabetes * diabetes + c.smoker * smoker + c.egfrBelow * egfrBelowTerm +
  c.egfrAbove * egfrAboveTerm + c.antiHypertensive * bpMedicated +
  c.statin * statin + c.antiHypertensive_sbpAbove * bpMedicated * sbpAboveTerm +
  c.statin_nonHdl * statin * nonHdlTerm + c.age_nonHdl * ageTerm * nonHdlTerm +
  c.age_hdl * ageTerm * hdlTerm + c.age_sbpAbove * ageTerm * sbpAboveTerm +
  c.age_diabetes * ageTerm * diabetes + c.age_smoker * ageTerm * smoker +
  c.age_egfrBelow * ageTerm * egfrBelowTerm

/-- The five numeric values required by the PREVENT Total CVD model are all
finite (cholesterol values after normalization). -/
def preventRequiredFinite (inputs : ClinicalInput) : Prop :=
  inputs.age.isFinite = true ∧ inputs.systolic.isFinite = true ∧
  (convertCholesterolToMmol inputs.totalChol).isFinite = true ∧
  (convertCholesterolToMmol inputs.hdl).isFinite = true ∧
  inputs.egfr.isFinite = true

/-! Concrete input records used by witnesses and counterexamples. -/

/-- A FINRISK call with every numeric field missing (Number of a missing form
field is NaN). -/
def finriskMissingAgeInput : ClinicalInput :=
  { sex := "male", smoker := "no", diabetes := "no", parentInfarction := "no"
    parentStroke := "no", bpMedicated := "no", statin := "no"
    age := .nan, systolic := .nan, totalChol := .nan, hdl := .nan, egfr := .nan }

/-- A female FINRISK call whose age field is missing but whose blood pressure
is present. -/
def finriskMissingAgeFemaleInput : ClinicalInput :=
  { sex := "female", smoker := "no", diabetes := "no", parentInfarction := "no"
    parentStroke := "no", bpMedicated := "no", statin := "no"
    age := .nan, systolic := .num 130, totalChol := .nan, hdl := .nan, egfr := .nan }

/-- A complete, finite input record whose sex field carries a value outside
the input enum. -/
def sexOtherInput : ClinicalInput :=
  { sex := "other", smoker := "no", diabetes := "no", parentInfarction := "no"
    parentStroke := "no", bpMedicated := "no", statin := "no"
    age := .num 60, systolic := .num 120, totalChol := .num 5, hdl := .num 1
    egfr := .num 90 }

/-- The female test-suite case: age 60, systolic 120, totalChol 5.2 mmol/L,
hdl 1.4 mmol/L, eGFR 90, no risk flags. -/
def preventFemaleTestInput : ClinicalInput :=
  { sex := "female", smoker := "no", diabetes := "no", parentInfarction := "no"
    parentStroke := "no", bpMedicated := "no", statin := "no"
    age := .num 60, systolic := .num 120, totalChol := .num 5.2, hdl := .num 1.4
    egfr := .num 90 }

/-- A male smoker FINRISK case with all required fields present. -/
def finriskMaleTestInput : ClinicalInput :=
  { sex := "male", smoker := "yes", diabetes := "no", parentInfarction := "yes"
    parentStroke := "no", bpMedicated := "no", statin := "no"
    age := .num 50, systolic := .num 140, totalChol := .num 6, hdl := .num 1.2
    egfr := .nan }

/-- A PREVENT Total CVD call whose eGFR field is missing. -/
def preventMissingEgfrInput : ClinicalInput :=
  { sex := "male", smoker := "no", diabetes := "no", parentInfarction := "no"
    parentStroke := "no", bpMedicated := "no", statin := "no"
    age := .num 55, systolic := .num 135, totalChol := .num 5.5, hdl := .num 1.2
    egfr := .nan }

end

/-! Helper lemmas about the JsNum arithmetic. -/

namespace JsNum

@[simp] theorem num_add (a b : ℝ) : num a + num b = num (a + b) := rfl

@[simp] theorem num_sub (a b : ℝ) : num a - num b = num (a - b) := rfl

@[simp] theorem num_mul (a b : ℝ) : num a * num b = num (a * b) := rfl

@[simp] theorem num_div (a b : ℝ) : num a / num b = num (a / b) := rfl

@[simp] theorem exp_num (a : ℝ) : exp (num a) = num (Real.exp a) := rfl

@[simp] theorem jsMin_num (a b : ℝ) : jsMin (num a) (num b) = num (min a b) := rfl

@[simp] theorem jsMax_num (a b : ℝ) : jsMax (num a) (num b) = num (max a b) := rfl

@[simp] theorem nan_add (x : JsNum) : nan + x = nan := by cases x <;> rfl

@[simp] theorem add_nan (x : JsNum) : x + nan = nan := by cases x <;> rfl

@[simp] theorem nan_sub (x : JsNum) : nan - x = nan := by cases x <;> rfl

@[simp] theorem sub_nan (x : JsNum) : x - nan = nan := by cases x <;> rfl

@[simp] theorem nan_mul (x : JsNum) : nan * x = nan := by cases x <;> rfl

@[simp] theorem mul_nan (x : JsNum) : x * nan = nan := by cases x <;> rfl

@[simp] theorem nan_div (x : JsNum) : nan / x = nan := by cases x <;> rfl

@[simp] theorem div_nan (x : JsNum) : x / nan = nan := by cases x <;> rfl

@[simp] theorem exp_nan : exp nan = nan := rfl

@[simp] theorem jsMin_nan (x : JsNum) : jsMin nan x = nan := by cases x <;> rfl

@[simp] theorem nan_jsMin (x : JsNum) : jsMin x nan = nan := by cases x <;> rfl

@[simp] theorem jsMax_nan (x : JsNum) : jsMax nan x = nan := by cases x <;> rfl

@[simp] theorem nan_jsMax (x : JsNum) : jsMax x nan = nan := by cases x <;> rfl

@[simp] theorem isFinite_num (a : ℝ) : isFinite (num a) = true := rfl

@[simp] theorem isFinite_nan : isFinite nan = false := rfl

theorem isFinite_iff (x : JsNum) : x.isFinite = true ↔ ∃ v, x = num v := by
  cases x <;> simp [isFinite]

end JsNum

/-! Helper lemmas about the clamp and the cholesterol normalizer. -/

theorem clampProbability_nan : clampProbability .nan = 0 := rfl

theorem clampProbability_nonneg (v : JsNum) : 0 ≤ clampProbability v := by
  cases v with
  | nan => simp [clampProbability]
  | num x => exact le_min (le_max_right x 0) (by norm_num)

theorem clampProbability_le (v : JsNum) : clampProbability v ≤ 0.95 := by
  cases v with
  | nan => norm_num [clampProbability]
  | num x => exact min_le_right _ _

theorem clampProbability_eq_self (x : ℝ) (h0 : 0 ≤ x) (h1 : x ≤ 0.95) :
    clampProbability (.num x) = x := by
  simp [clampProbability, max_eq_left h0, min_eq_left h1]

theorem clampProbability_of_neg (x : ℝ) (h : x < 0) :
    clampProbability (.num x) = 0 := by
  simp only [clampProbability, max_eq_right h.le]
  exact min_eq_left (by norm_num)

theorem clampProbability_of_gt (x : ℝ) (h : 0.95 < x) :
    clampProbability (.num x) = 0.95 := by
  have h0 : (0 : ℝ) ≤ x := le_trans (by norm_num) h.le
  simp only [clampProbability, max_eq_left h0]
  exact min_eq_right h.le

theorem convertCholesterolToMmol_nan : convertCholesterolToMmol .nan = .nan := rfl

theorem convertCholesterolToMmol_nonpos (v : ℝ) (h : v ≤ 0) :
    convertCholesterolToMmol (.num v) = .num v := by
  simp [convertCholesterolToMmol, h]

theorem convertCholesterolToMmol_mid (v : ℝ) (h0 : 0 < v) (h1 : v ≤ 20) :
    convertCholesterolToMmol (.num v) = .num v := by
  simp only [convertCholesterolToMmol, CHOLESTEROL_MGDL_THRESHOLD]
  rw [if_neg (not_le.mpr h0), if_neg (not_lt.mpr h1)]

theorem convertCholesterolToMmol_high (v : ℝ) (h : 20 < v) :
    convertCholesterolToMmol (.num v) = .num (v * MGDL_TO_MMOL) := by
  have h0 : ¬ v ≤ 0 := not_le.mpr (lt_trans (by norm_num) h)
  simp only [convertCholesterolToMmol, CHOLESTEROL_MGDL_THRESHOLD]
  rw [if_neg h0, if_pos h]

theorem convertCholesterolToMmol_isFinite (x : JsNum) :
    (convertCholesterolToMmol x).isFinite = x.isFinite := by
  cases x with
  | nan => rfl
  | num v =>
    simp only [convertCholesterolToMmol]
    split_ifs <;> rfl

/-! Helper lemmas about the FINRISK calculation. -/

theorem calculateFinrisk_shape (inputs : ClinicalInput) :
    ∃ z, calculateFinrisk inputs = Except.ok (clampProbability z) := by
  by_cases hs : inputs.sex = "female" <;>
    [skip; skip] <;>
  · simp only [calculateFinrisk, finriskCoefficients, hs, if_true, if_false,
      reduceIte]
    exact ⟨_, rfl⟩

theorem calculateFinrisk_nanProp (inputs : ClinicalInput)
    (h : inputs.age = .nan ∨ inputs.systolic = .nan ∨
      convertCholesterolToMmol inputs.totalChol = .nan ∨
      convertCholesterolToMmol inputs.hdl = .nan) :
    calculateFinrisk inputs = Except.ok 0 := by
  by_cases hs : inputs.sex = "female" <;> rcases h with h | h | h | h <;>
    simp [calculateFinrisk, finriskCoefficients, hs, h, clampProbability]

theorem calculateFinrisk_sex_default (inputs : ClinicalInput)
    (h : inputs.sex ≠ "female") :
    calculateFinrisk inputs = calculateFinrisk { inputs with sex := "male" } := by
  simp [calculateFinrisk, h]

theorem calculatePreventTotalCvd_sex_default (inputs : ClinicalInput)
    (h : inputs.sex ≠ "female") :
    calculatePreventTotalCvd inputs =
      calculatePreventTotalCvd { inputs with sex := "male" } := by
  simp [calculatePreventTotalCvd, h]

theorem calculateFinrisk_eval (inputs : ClinicalInput) (a sy tc hd : ℝ)
    (ha : inputs.age = .num a) (hsy : inputs.systolic = .num sy)
    (htc : convertCholesterolToMmol inputs.totalChol = .num tc)
    (hhd : convertCholesterolToMmol inputs.hdl = .num hd) :
    calculateFinrisk inputs = Except.ok (clampProbability (JsNum.num
      (finriskCombined
        (finriskSubRisk (finriskCoronaryExponent
          (if inputs.sex = "female" then finriskFemale else finriskMale).coronary
          a (if inputs.smoker = "yes" then 1 else 0) tc sy hd
          (if inputs.diabetes = "yes" then 1 else 0)
          (if inputs.parentInfarction = "yes" then 1 else 0)))
        (finriskSubRisk (finriskStrokeExponent
          (if inputs.sex = "female" then finriskFemale else finriskMale).stroke
          a (if inputs.smoker = "yes" then 1 else 0) sy hd
          (if inputs.diabetes = "yes" then 1 else 0)
          (if inputs.parentStroke = "yes" then 1 else 0)))))) := by
  by_cases hs : inputs.sex = "female" <;>
    simp [calculateFinrisk, finriskCoefficients, hs, ha, hsy, htc, hhd,
      finriskCombined, finriskSubRisk, finriskCoronaryExponent,
      finriskStrokeExponent]

/-! Helper lemmas about the PREVENT Total CVD calculation. -/

theorem exp_div_one_add_exp (x : ℝ) :
    Real.exp x / (1 + Real.exp x) = 1 / (1 + Real.exp (-x)) := by
  rw [div_eq_div_iff (by positivity) (by positivity), Real.exp_neg]
  have h := Real.exp_ne_zero x
  field_simp
  ring

theorem prevent_any_iff (inputs : ClinicalInput) :
    ([inputs.age, inputs.systolic, convertCholesterolToMmol inputs.totalChol,
        convertCholesterolToMmol inputs.hdl, inputs.egfr].any
      fun value => !value.isFinite) = true ↔ ¬ preventRequiredFinite inputs := by
  simp only [preventRequiredFinite, List.any_cons, List.any_nil,
    Bool.or_eq_true, Bool.not_eq_true', Bool.or_false]
  constructor
  · rintro (h | h | h | h | h) ⟨h1, h2, h3, h4, h5⟩ <;> simp_all
  · intro h
    by_contra hc
    push_neg at hc
    obtain ⟨c1, c2, c3, c4, c5⟩ := hc
    exact h ⟨by simpa using c1, by simpa using c2, by simpa using c3,
      by simpa using c4, by simpa using c5⟩

theorem calculatePreventTotalCvd_error_of_nonfinite (inputs : ClinicalInput)
    (h : ¬ preventRequiredFinite inputs) :
    calculatePreventTotalCvd inputs =
      Except.error ("Missing or invalid numeric inputs for PREVENT Total CVD calculation.") := by
  have hany := (prevent_any_iff inputs).mpr h
  by_cases hs : inputs.sex = "female" <;>
    simp [calculatePreventTotalCvd, riskCalculatorCoefficients, hs, hany]

theorem calculatePreventTotalCvd_shape_of_finite (inputs : ClinicalInput)
    (h : preventRequiredFinite inputs) :
    ∃ z, calculatePreventTotalCvd inputs = Except.ok (clampProbability z) := by
  obtain ⟨h1, h2, h3, h4, h5⟩ := h
  by_cases hs : inputs.sex = "female" <;>
    [skip; skip] <;>
  · simp only [calculatePreventTotalCvd, riskCalculatorCoefficients, hs,
      if_true, if_false, reduceIte, List.any_cons, List.any_nil, h1, h2, h3,
      h4, h5, Bool.not_true, Bool.or_false, Bool.or_self, Bool.false_or,
      ite_false]
    exact ⟨_, rfl⟩

theorem calculatePreventTotalCvd_eval (inputs : ClinicalInput)
    (a sy tc hd eg : ℝ)
    (ha : inputs.age = .num a) (hsy : inputs.systolic = .num sy)
    (htc : convertCholesterolToMmol inputs.totalChol = .num tc)
    (hhd : convertCholesterolToMmol inputs.hdl = .num hd)
    (heg : inputs.egfr = .num eg) :
    calculatePreventTotalCvd inputs = Except.ok (clampProbability (JsNum.num
      (sigmoid (preventLinearPredictor
        (if inputs.sex = "female" then riskCalculatorFemale else riskCalculatorMale)
        a sy tc hd eg
        (if inputs.diabetes = "yes" then 1 else 0)
        (if inputs.smoker = "yes" then 1 else 0)
        (if inputs.bpMedicated = "yes" then 1 else 0)
        (if inputs.statin = "yes" then 1 else 0))))) := by
  by_cases hs : inputs.sex = "female" <;>
    simp [calculatePreventTotalCvd, riskCalculatorCoefficients, hs, ha, hsy,
      htc, hhd, heg, sigmoid, preventLinearPredictor, exp_div_one_add_exp]

/-! Bounds on the FINRISK sub-risks and the independence combination. -/

theorem finriskSubRisk_pos (e : ℝ) : 0 < finriskSubRisk e := by
  unfold finriskSubRisk
  positivity

theorem finriskSubRisk_lt_one (e : ℝ) : finriskSubRisk e < 1 := by
  unfold finriskSubRisk
  rw [div_lt_one (by positivity)]
  linarith [Real.exp_pos e]

theorem finriskCombined_ge_max (c s : ℝ) (hc0 : 0 ≤ c) (hc1 : c ≤ 1)
    (hs0 : 0 ≤ s) (hs1 : s ≤ 1) : max c s ≤ finriskCombined c s := by
  unfold finriskCombined
  apply max_le <;> nlinarith

theorem finriskCombined_lt_one (c s : ℝ) (hc1 : c < 1) (hs1 : s < 1) :
    finriskCombined c s < 1 := by
  unfold finriskCombined
  nlinarith

/-! Helper lemmas about the treatment projector. -/

theorem treatmentStrategies_multiplier_bounds :
    ∀ s ∈ treatmentStrategies, 0 < s.multiplier ∧ s.multiplier ≤ 1 := by
  intro s hs
  simp only [treatmentStrategies, List.mem_cons, List.not_mem_nil,
    or_false] at hs
  rcases hs with h | h | h | h | h | h <;> subst h <;> norm_num

theorem clampProbability_mul_le (b m : ℝ) (hb0 : 0 ≤ b) (hm0 : 0 < m)
    (hm1 : m ≤ 1) : clampProbability (JsNum.num (b * m)) ≤ b := by
  have h0 : 0 ≤ b * m := mul_nonneg hb0 hm0.le
  have hle : b * m ≤ b := by nlinarith
  calc clampProbability (JsNum.num (b * m)) ≤ max (b * m) 0 := min_le_left _ _
    _ = b * m := max_eq_left h0
    _ ≤ b := hle

theorem clampProbability_mul_eq (b m : ℝ) (hb0 : 0 ≤ b) (hb1 : b ≤ 0.95)
    (hm0 : 0 ≤ m) (hm1 : m ≤ 1) :
    clampProbability (JsNum.num (b * m)) = b * m := by
  have h0 : 0 ≤ b * m := mul_nonneg hb0 hm0
  have h1 : b * m ≤ 0.95 := le_trans (by nlinarith) hb1
  exact clampProbability_eq_self _ h0 h1

/-! Claim theorems. -/

/-- C1: for every ClinicalInput record on which a model calculate function
returns a risk value, that value lies in [0, 0.95]: both calculateFinrisk
and calculatePreventTotalCvd pass their final value through clampProbability
before returning. -/
theorem claim_C1_risk_in_clamped_range (inputs : ClinicalInput) (r : ℝ)
    (h : calculateFinrisk inputs = Except.ok r ∨
      calculatePreventTotalCvd inputs = Except.ok r) :
    0 ≤ r ∧ r ≤ 0.95 := by
  rcases h with h | h
  · obtain ⟨z, hz⟩ := calculateFinrisk_shape inputs
    rw [hz] at h
    obtain rfl := (Except.ok.injEq _ _).mp h
    exact ⟨clampProbability_nonneg z, clampProbability_le z⟩
  · by_cases hf : preventRequiredFinite inputs
    · obtain ⟨z, hz⟩ := calculatePreventTotalCvd_shape_of_finite inputs hf
      rw [hz] at h
      obtain rfl := (Except.ok.injEq _ _).mp h
      exact ⟨clampProbability_nonneg z, clampProbability_le z⟩
    · rw [calculatePreventTotalCvd_error_of_nonfinite inputs hf] at h
      exact absurd h (by simp)

/-- C1 witness: the FINRISK model returns 0 on the all-missing record, and 0
lies in the clamped range. -/
theorem claim_C1_witness : 0 ≤ (0 : ℝ) ∧ (0 : ℝ) ≤ 0.95 :=
  claim_C1_risk_in_clamped_range finriskMissingAgeInput 0 (Or.inl rfl)

/-- C2 counterexample: a FINRISK calculation whose required numeric fields
are missing does not fail, it returns the risk value 0. -/
theorem claim_C2_counterexample :
    calculateFinrisk finriskMissingAgeInput = Except.ok 0 := rfl

/-- C2 amended: the production calculateFinrisk performs no finiteness
validation and never throws for missing numeric data; a missing or
non-finite required numeric field (age, systolic, totalChol or hdl)
propagates NaN through the exponents and the final clampProbability turns
the NaN into a silently returned 0. -/
theorem claim_C2_amended_finrisk_silently_zero (inputs : ClinicalInput) :
    (∃ r, calculateFinrisk inputs = Except.ok r) ∧
    (inputs.age = .nan ∨ inputs.systolic = .nan ∨
        convertCholesterolToMmol inputs.totalChol = .nan ∨
        convertCholesterolToMmol inputs.hdl = .nan →
      calculateFinrisk inputs = Except.ok 0) := by
  constructor
  · obtain ⟨z, hz⟩ := calculateFinrisk_shape inputs
    exact ⟨_, hz⟩
  · exact calculateFinrisk_nanProp inputs

/-- C2 amended witness: a female record with a missing age returns 0. -/
theorem claim_C2_amended_witness :
    calculateFinrisk finriskMissingAgeFemaleInput = Except.ok 0 :=
  (claim_C2_amended_finrisk_silently_zero finriskMissingAgeFemaleInput).2
    (Or.inl rfl)

/-- C3 counterexample: with sex = "other", which has no coefficient set of
its own, both calculate functions succeed and produce exactly the result of
the male coefficient table instead of failing. -/
theorem claim_C3_counterexample :
    (∃ r, calculateFinrisk sexOtherInput = Except.ok r) ∧
    (∃ r, calculatePreventTotalCvd sexOtherInput = Except.ok r) ∧
    calculateFinrisk sexOtherInput =
      calculateFinrisk { sexOtherInput with sex := "male" } ∧
    calculatePreventTotalCvd sexOtherInput =
      calculatePreventTotalCvd { sexOtherInput with sex := "male" } := by
  refine ⟨⟨_, rfl⟩, ?_, rfl, rfl⟩
  have hf : preventRequiredFinite sexOtherInput := by
    refine ⟨rfl, rfl, ?_, ?_, rfl⟩ <;> rw [convertCholesterolToMmol_isFinite] <;> rfl
  obtain ⟨z, hz⟩ := calculatePreventTotalCvd_shape_of_finite sexOtherInput hf
  exact ⟨_, hz⟩

/-- C3 amended: any sex value other than "female" is resolved to "male"
before the coefficient lookup, so the lookup always succeeds: the calculation
is silently carried out against the male coefficient table and the
missing-coefficient error branch is unreachable. -/
theorem claim_C3_amended_sex_defaults_to_male (inputs : ClinicalInput)
    (h : inputs.sex ≠ "female") :
    calculateFinrisk inputs = calculateFinrisk { inputs with sex := "male" } ∧
    calculatePreventTotalCvd inputs =
      calculatePreventTotalCvd { inputs with sex := "male" } ∧
    ∃ r, calculateFinrisk inputs = Except.ok r := by
  refine ⟨calculateFinrisk_sex_default inputs h,
    calculatePreventTotalCvd_sex_default inputs h, ?_⟩
  obtain ⟨z, hz⟩ := calculateFinrisk_shape inputs
  exact ⟨_, hz⟩

/-- C3 amended witness: the record with sex = "other" behaves exactly like
its male copy under FINRISK. -/
theorem claim_C3_amended_witness :
    calculateFinrisk sexOtherInput =
      calculateFinrisk { sexOtherInput with sex := "male" } :=
  (claim_C3_amended_sex_defaults_to_male sexOtherInput (by decide)).1

/-- C4: on every valid input, calculatePreventTotalCvd forms the
centered/scaled predictor terms, the sex-specific linear predictor with its
interaction terms, and returns clamp(sigmoid(linearPredictor)) with
sigmoid(x) = 1/(1+e^−x); the code form exp(x)/(1+exp(x)) is equal to it. -/
theorem claim_C4_prevent_refines_spec (inputs : ClinicalInput)
    (a sy tc hd eg : ℝ)
    (ha : inputs.age = .num a) (hsy : inputs.systolic = .num sy)
    (htc : convertCholesterolToMmol inputs.totalChol = .num tc)
    (hhd : convertCholesterolToMmol inputs.hdl = .num hd)
    (heg : inputs.egfr = .num eg) :
    calculatePreventTotalCvd inputs = Except.ok (clampProbability (JsNum.num
      (sigmoid (preventLinearPredictor
        (if inputs.sex = "female" then riskCalculatorFemale else riskCalculatorMale)
        a sy tc hd eg
        (if inputs.diabetes = "yes" then 1 else 0)
        (if inputs.smoker = "yes" then 1 else 0)
        (if inputs.bpMedicated = "yes" then 1 else 0)
        (if inputs.statin = "yes" then 1 else 0))))) :=
  calculatePreventTotalCvd_eval inputs a sy tc hd eg ha hsy htc hhd heg

/-- C4 witness: the female test case evaluates to the clamped sigmoid of the
female linear predictor at age 60, systolic 120, totalChol 5.2, hdl 1.4,
eGFR 90, with all flags 0. -/
theorem claim_C4_witness :
    calculatePreventTotalCvd preventFemaleTestInput =
      Except.ok (clampProbability (JsNum.num (sigmoid (preventLinearPredictor
        riskCalculatorFemale 60 120 5.2 1.4 90 0 0 0 0)))) := by
  have htc : convertCholesterolToMmol preventFemaleTestInput.totalChol =
      .num 5.2 := by
    rw [show preventFemaleTestInput.totalChol = JsNum.num 5.2 from rfl]
    exact convertCholesterolToMmol_mid 5.2 (by norm_num) (by norm_num)
  have hhd : convertCholesterolToMmol preventFemaleTestInput.hdl =
      .num 1.4 := by
    rw [show preventFemaleTestInput.hdl = JsNum.num 1.4 from rfl]
    exact convertCholesterolToMmol_mid 1.4 (by norm_num) (by norm_num)
  exact claim_C4_prevent_refines_spec preventFemaleTestInput 60 120 5.2 1.4 90
    rfl rfl htc hhd rfl

/-- C5: for every input on which calculateFinrisk succeeds with finite
numeric data, the value handed to the clamp is 1 − (1−cR)·(1−sR) with
sub-risks 1/(1+e^exponent) for the sex-specific exponents, and that combined
value is at least max(cR, sR) and strictly below 1. -/
theorem claim_C5_finrisk_combination (inputs : ClinicalInput) (a sy tc hd : ℝ)
    (ha : inputs.age = .num a) (hsy : inputs.systolic = .num sy)
    (htc : convertCholesterolToMmol inputs.totalChol = .num tc)
    (hhd : convertCholesterolToMmol inputs.hdl = .num hd) :
    ∃ cR sR,
      calculateFinrisk inputs =
        Except.ok (clampProbability (JsNum.num (finriskCombined cR sR))) ∧
      cR = finriskSubRisk (finriskCoronaryExponent
        (if inputs.sex = "female" then finriskFemale else finriskMale).coronary
        a (if inputs.smoker = "yes" then 1 else 0) tc sy hd
        (if inputs.diabetes = "yes" then 1 else 0)
        (if inputs.parentInfarction = "yes" then 1 else 0)) ∧
      sR = finriskSubRisk (finriskStrokeExponent
        (if inputs.sex = "female" then finriskFemale else finriskMale).stroke
        a (if inputs.smoker = "yes" then 1 else 0) sy hd
        (if inputs.diabetes = "yes" then 1 else 0)
        (if inputs.parentStroke = "yes" then 1 else 0)) ∧
      max cR sR ≤ finriskCombined cR sR ∧ finriskCombined cR sR < 1 := by
  refine ⟨_, _, calculateFinrisk_eval inputs a sy tc hd ha hsy htc hhd,
    rfl, rfl, ?_, ?_⟩
  · exact finriskCombined_ge_max _ _ (finriskSubRisk_pos _).le
      (finriskSubRisk_lt_one _).le (finriskSubRisk_pos _).le
      (finriskSubRisk_lt_one _).le
  · exact finriskCombined_lt_one _ _ (finriskSubRisk_lt_one _)
      (finriskSubRisk_lt_one _)

/-- C5 witness: the male smoker test record with age 50, systolic 140,
totalChol 6, hdl 1.2 and a parental infarction. -/
theorem claim_C5_witness :
    ∃ cR sR,
      calculateFinrisk finriskMaleTestInput =
        Except.ok (clampProbability (JsNum.num (finriskCombined cR sR))) ∧
      cR = finriskSubRisk (finriskCoronaryExponent finriskMale.coronary
        50 1 6 140 1.2 0 1) ∧
      sR = finriskSubRisk (finriskStrokeExponent finriskMale.stroke
        50 1 140 1.2 0 0) ∧
      max cR sR ≤ finriskCombined cR sR ∧ finriskCombined cR sR < 1 := by
  have htc : convertCholesterolToMmol finriskMaleTestInput.totalChol =
      .num 6 := by
    rw [show finriskMaleTestInput.totalChol = JsNum.num 6 from rfl]
    exact convertCholesterolToMmol_mid 6 (by norm_num) (by norm_num)
  have hhd : convertCholesterolToMmol finriskMaleTestInput.hdl =
      .num 1.2 := by
    rw [show finriskMaleTestInput.hdl = JsNum.num 1.2 from rfl]
    exact convertCholesterolToMmol_mid 1.2 (by norm_num) (by norm_num)
  exact claim_C5_finrisk_combination finriskMaleTestInput 50 140 6 1.2
    rfl rfl htc hhd

/-- C6: calculatePreventTotalCvd fails with its descriptive error exactly
when one of the five required numeric inputs (age, systolic, normalized
totalChol, normalized hdl, eGFR) is non-finite, and returns a number when
all five are finite. -/
theorem claim_C6_prevent_error_iff (inputs : ClinicalInput) :
    (calculatePreventTotalCvd inputs =
        Except.error ("Missing or invalid numeric inputs for PREVENT Total CVD calculation.") ↔
      ¬ preventRequiredFinite inputs) ∧
    (preventRequiredFinite inputs →
      ∃ r, calculatePreventTotalCvd inputs = Except.ok r) := by
  refine ⟨⟨?_, calculatePreventTotalCvd_error_of_nonfinite inputs⟩, ?_⟩
  · intro h hf
    obtain ⟨z, hz⟩ := calculatePreventTotalCvd_shape_of_finite inputs hf
    rw [hz] at h
    exact absurd h (by simp)
  · intro hf
    obtain ⟨z, hz⟩ := calculatePreventTotalCvd_shape_of_finite inputs hf
    exact ⟨_, hz⟩

/-- C6 witness: a record with a missing eGFR field fails with the
invalid-input error rather than silently computing with 0. -/
theorem claim_C6_witness :
    calculatePreventTotalCvd preventMissingEgfrInput =
      Except.error ("Missing or invalid numeric inputs for PREVENT Total CVD calculation.") := by
  apply (claim_C6_prevent_error_iff preventMissingEgfrInput).1.mpr
  intro h
  exact absurd h.2.2.2.2 (by simp [preventMissingEgfrInput])

/-- C7: convertCholesterolToMmol returns NaN on non-finite input, returns
values at most the threshold 20 unchanged (including non-positive values),
and multiplies values above 20 by 0.02586. -/
theorem claim_C7_convert_spec :
    convertCholesterolToMmol .nan = .nan ∧
    (∀ v : ℝ, v ≤ 0 → convertCholesterolToMmol (.num v) = .num v) ∧
    (∀ v : ℝ, 0 < v → v ≤ 20 → convertCholesterolToMmol (.num v) = .num v) ∧
    (∀ v : ℝ, 20 < v →
      convertCholesterolToMmol (.num v) = .num (v * 0.02586)) :=
  ⟨rfl, convertCholesterolToMmol_nonpos, convertCholesterolToMmol_mid,
    convertCholesterolToMmol_high⟩

/-- C7 witness: 200 mg/dL converts to 5.172 mmol/L and 4.7 mmol/L is left
unchanged. -/
theorem claim_C7_witness :
    convertCholesterolToMmol (.num 200) = .num 5.172 ∧
    convertCholesterolToMmol (.num 4.7) = .num 4.7 := by
  constructor
  · rw [claim_C7_convert_spec.2.2.2 200 (by norm_num)]
    norm_num
  · exact claim_C7_convert_spec.2.2.1 4.7 (by norm_num) (by norm_num)

/-- C8: clampProbability maps NaN to 0, negative values to 0, values above
0.95 to 0.95, keeps values in [0, 0.95] unchanged, and its result always
lies in [0, 0.95]. -/
theorem claim_C8_clamp_spec :
    clampProbability .nan = 0 ∧
    (∀ x : ℝ, x < 0 → clampProbability (.num x) = 0) ∧
    (∀ x : ℝ, 0.95 < x → clampProbability (.num x) = 0.95) ∧
    (∀ x : ℝ, 0 ≤ x → x ≤ 0.95 → clampProbability (.num x) = x) ∧
    (∀ v : JsNum, 0 ≤ clampProbability v ∧ clampProbability v ≤ 0.95) :=
  ⟨rfl, clampProbability_of_neg, clampProbability_of_gt,
    clampProbability_eq_self,
    fun v => ⟨clampProbability_nonneg v, clampProbability_le v⟩⟩

/-- C8 witness: clamp of −1 is 0 and clamp of 1.5 is 0.95. -/
theorem claim_C8_witness :
    clampProbability (.num (-1)) = 0 ∧ clampProbability (.num 1.5) = 0.95 :=
  ⟨claim_C8_clamp_spec.2.1 (-1) (by norm_num),
    claim_C8_clamp_spec.2.2.1 1.5 (by norm_num)⟩

/-- C9: calculateTreatmentRisks returns exactly one TreatmentResult per
entry of treatmentStrategies in order, with risk = clamp(baseline ×
multiplier) and absoluteBenefit = max(0, baseline − baseline × multiplier);
for a baseline in [0, 0.95] and a multiplier in (0,1) the projected risk is
at most the baseline and the benefit is nonnegative. -/
theorem claim_C9_treatment_projection (b : ℝ) (hb0 : 0 ≤ b)
    (hb1 : b ≤ 0.95) :
    List.Forall₂ (fun (s : TreatmentStrategy) (r : TreatmentResult) =>
        r.id = s.id ∧ r.label = s.label ∧ r.multiplier = s.multiplier ∧
        r.risk = clampProbability (JsNum.num (b * s.multiplier)) ∧
        r.absoluteBenefit = max 0 (b - b * s.multiplier) ∧
        (0 < s.multiplier → s.multiplier < 1 → r.risk ≤ b) ∧
        0 ≤ r.absoluteBenefit)
      treatmentStrategies (calculateTreatmentRisks b) := by
  unfold calculateTreatmentRisks
  rw [List.forall₂_map_right_iff, List.forall₂_same]
  intro s hs
  refine ⟨rfl, rfl, rfl, rfl, rfl, ?_, le_max_left _ _⟩
  intro h0 h1
  exact clampProbability_mul_le b s.multiplier hb0 h0 h1.le

/-- C9 witness: the projection of baseline risk 0.5. -/
theorem claim_C9_witness :
    List.Forall₂ (fun (s : TreatmentStrategy) (r : TreatmentResult) =>
        r.id = s.id ∧ r.label = s.label ∧ r.multiplier = s.multiplier ∧
        r.risk = clampProbability (JsNum.num (0.5 * s.multiplier)) ∧
        r.absoluteBenefit = max 0 (0.5 - 0.5 * s.multiplier) ∧
        (0 < s.multiplier → s.multiplier < 1 → r.risk ≤ 0.5) ∧
        0 ≤ r.absoluteBenefit)
      treatmentStrategies (calculateTreatmentRisks 0.5) :=
  claim_C9_treatment_projection 0.5 (by norm_num) (by norm_num)

/-- C10: for a baseline risk in [0, 0.95] every produced TreatmentResult
satisfies risk = baseline × multiplier (the clamp is the identity there),
absoluteBenefit = baseline − baseline × multiplier (the max-guard never
fires), and risk + absoluteBenefit = baseline exactly. -/
theorem claim_C10_risk_plus_benefit_eq_baseline (b : ℝ) (hb0 : 0 ≤ b)
    (hb1 : b ≤ 0.95) :
    ∀ r ∈ calculateTreatmentRisks b,
      r.risk = b * r.multiplier ∧
      r.absoluteBenefit = b - b * r.multiplier ∧
      r.risk + r.absoluteBenefit = b := by
  intro r hr
  rw [calculateTreatmentRisks, List.mem_map] at hr
  obtain ⟨s, hs, rfl⟩ := hr
  obtain ⟨hm0, hm1⟩ := treatmentStrategies_multiplier_bounds s hs
  have hrisk : clampProbability (JsNum.num (b * s.multiplier)) =
      b * s.multiplier := clampProbability_mul_eq b s.multiplier hb0 hb1 hm0.le hm1
  have hben : max 0 (b - b * s.multiplier) = b - b * s.multiplier :=
    max_eq_right (by nlinarith)
  refine ⟨hrisk, hben, ?_⟩
  dsimp only
  rw [hrisk, hben]
  ring

/-- C10 witness: the baseline entry of the projection of 0.5 sums back to
0.5. -/
theorem claim_C10_witness :
    clampProbability (JsNum.num (0.5 * 1)) + max 0 (0.5 - 0.5 * 1) = 0.5 :=
  (claim_C10_risk_plus_benefit_eq_baseline 0.5 (by norm_num) (by norm_num) _
    (List.mem_cons_self _ _)).2.2

end RiskCore
